import Mathlib

/-!
Shallow embedding of the langraph-travel-planner core
(`travel_graph.py`, `itinerary_agent.py`, `server.py`).

Conventions of the embedding:
* Python strings are Lean `String`; the string algorithms (strip, lower,
  title, split) are implemented over `List Char` because the corresponding
  core-library string functions do not reduce in the kernel.
* Python floats (temperatures, precipitation probabilities) are modelled
  as rationals `ℚ`.  Arithmetic on them is written through `mkRat` on
  numerator/denominator so that concrete terms evaluate by kernel
  reduction; each helper states the Python expression it denotes.
* Python `None` is `Option.none`; a fallible operation returns
  `Except PyErr _` where `PyErr` distinguishes a transport-level
  `requests` exception, an `HTTPError` from `raise_for_status`, and a
  `ValueError` from `date.fromisoformat`.
* The HTTP responses and the sources of nondeterminism (the Hugging Face
  text generation and `random.choice`) are supplied by an explicit
  environment `Env`; one invocation of the dialog step reads at most one
  response per endpoint, matching the single blocking request per call in
  the source.
-/

set_option linter.unusedVariables false

/-! ### Python string primitives -/

/-- Python whitespace recognised by `str.strip()`. -/
def isPySpace (c : Char) : Bool :=
  c == ' ' || c == '\t' || c == '\n' || c == '\r' || c == '\x0b' || c == '\x0c'

/-- `str.strip()` on a character list: drop whitespace from both ends. -/
def stripList (l : List Char) : List Char :=
  ((l.dropWhile isPySpace).reverse.dropWhile isPySpace).reverse

/-- Python `str.strip()`. -/
def pyStrip (s : String) : String := String.mk (stripList s.data)

/-- Python `str.lower()` (ASCII letters, which covers every string the
claims quantify concretely over). -/
def pyLower (s : String) : String := String.mk (s.data.map Char.toLower)

/-- One step of Python `str.title()`: a letter is uppercased when the
previous character is not a letter, lowercased otherwise. -/
def titleGo : Bool → List Char → List Char
  | _, [] => []
  | prevAlpha, c :: rest =>
    (if c.isAlpha then (if prevAlpha then c.toLower else c.toUpper) else c) ::
      titleGo c.isAlpha rest

/-- Python `str.title()`. -/
def pyTitle (s : String) : String := String.mk (titleGo false s.data)

/-- Split a character list at every occurrence of `sep`, keeping empty
pieces, as Python `str.split(sep)` does for a one-character separator. -/
def splitChar (sep : Char) : List Char → List Char → List String
  | acc, [] => [String.mk acc.reverse]
  | acc, c :: rest =>
    if c == sep then String.mk acc.reverse :: splitChar sep [] rest
    else splitChar sep (c :: acc) rest

/-- Python `str.split(",")`. -/
def pySplitComma (s : String) : List String := splitChar ',' [] s.data

/-- Python `str.split(" ")[0]`: the prefix before the first space. -/
def beforeFirstSpace (s : String) : String :=
  String.mk (s.data.takeWhile (fun c => c != ' '))

/-- Lexicographic code-point comparison of character lists: the order
Python uses when comparing strings with `<`. -/
def charListLt : List Char → List Char → Bool
  | [], [] => false
  | [], _ :: _ => true
  | _ :: _, [] => false
  | a :: as, b :: bs =>
    if a.val < b.val then true
    else if b.val < a.val then false
    else charListLt as bs

/-- Python string `<`. -/
def strLt (a b : String) : Bool := charListLt a.data b.data

/-- Insert into a list sorted by `strLt`. -/
def insertStr (x : String) : List String → List String
  | [] => [x]
  | y :: ys => if strLt x y then x :: y :: ys else y :: insertStr x ys

/-- Python `sorted` on strings (insertion sort; the inputs it is applied
to are duplicate-free, so stability is irrelevant). -/
def sortStrings : List String → List String
  | [] => []
  | x :: xs => insertStr x (sortStrings xs)

/-! ### Numbers -/

/-- `_extract_numbers` / regex `(\d+)`: the accumulator holds the value of
the digit run currently being read. -/
def extractGo : Option Nat → List Char → List Nat
  | acc, [] => match acc with | some n => [n] | none => []
  | acc, c :: rest =>
    if c.isDigit then
      extractGo (some ((acc.getD 0) * 10 + (c.toNat - 48))) rest
    else
      match acc with
      | some n => n :: extractGo none rest
      | none => extractGo none rest

/-- `_extract_numbers(text)`: every maximal run of decimal digits of the
text, in order, read as an integer. -/
def extractNumbers (text : String) : List Nat := extractGo none text.data

/-- Python 3 `int(round(q))`: round half to even.  `r2` is twice the
fractional remainder of `q` over its denominator. -/
def pyRound (q : ℚ) : ℤ :=
  let n : ℤ := q.num
  let d : ℤ := (q.den : ℤ)
  let f : ℤ := n.fdiv d
  let r2 : ℤ := 2 * (n - f * d)
  if r2 < d then f
  else if d < r2 then f + 1
  else if f % 2 = 0 then f else f + 1

/-- The rational `(a + b) / 2`, written via `mkRat` so that it evaluates
by kernel reduction. -/
def qAvg2 (a b : ℚ) : ℚ :=
  mkRat (a.num * (b.den : ℤ) + b.num * (a.den : ℤ)) (2 * (a.den * b.den))

/-- The rational `a * 100`, written via `mkRat`. -/
def qTimes100 (a : ℚ) : ℚ := mkRat (a.num * 100) a.den

/-- Python `min` of two values (keeps the left one on ties). -/
def qMin (a b : ℚ) : ℚ := if b < a then b else a

/-- Python `max` of two values (keeps the left one on ties). -/
def qMax (a b : ℚ) : ℚ := if a < b then b else a

/-- Python `min` of a non-empty list (`0` on the empty list, which the
source never evaluates). -/
def listMinQ : List ℚ → ℚ
  | [] => 0
  | x :: xs => xs.foldl qMin x

/-- Python `max` of a non-empty list (`0` on the empty list, which the
source never evaluates). -/
def listMaxQ : List ℚ → ℚ
  | [] => 0
  | x :: xs => xs.foldl qMax x

/-! ### Calendar dates (`datetime.date`) -/

structure Date where
  year : Nat
  month : Nat
  day : Nat
deriving DecidableEq, Repr

/-- `datetime.date` ordering (lexicographic on year, month, day);
`dateLE a b` is `a <= b`. -/
def dateLE (a b : Date) : Bool :=
  if a.year ≠ b.year then a.year < b.year
  else if a.month ≠ b.month then a.month < b.month
  else a.day ≤ b.day

/-- Gregorian leap-year rule. -/
def isLeap (y : Nat) : Bool := (y % 4 == 0 && y % 100 != 0) || y % 400 == 0

/-- Length of a month, as `datetime` validates it. -/
def daysInMonth (y m : Nat) : Nat :=
  if m == 2 then (if isLeap y then 29 else 28)
  else if m == 4 || m == 6 || m == 9 || m == 11 then 30
  else 31

/-- Civil date of day number `z` counted from 1970-01-01 (the standard
days-from-civil inverse, restricted to non-negative day numbers). -/
def civilFromDays (z0 : Nat) : Date :=
  let z := z0 + 719468
  let era := z / 146097
  let doe := z % 146097
  let yoe := (doe - doe / 1460 + doe / 36524 - doe / 146097) / 365
  let y := yoe + era * 400
  let doy := doe - (365 * yoe + yoe / 4 - yoe / 100)
  let mp := (5 * doy + 2) / 153
  let d := doy - (153 * mp + 2) / 5 + 1
  let m := if mp < 10 then mp + 3 else mp - 9
  { year := if m ≤ 2 then y + 1 else y, month := m, day := d }

/-- Two-digit zero padding, as `strftime` prints months and days. -/
def pad2 (n : Nat) : String := if n < 10 then "0" ++ toString n else toString n

/-- `date` rendered as `YYYY-MM-DD` (`strftime("%Y-%m-%d")`). -/
def isoOfDate (dte : Date) : String :=
  toString dte.year ++ "-" ++ pad2 dte.month ++ "-" ++ pad2 dte.day

/-- `datetime.utcfromtimestamp(ts).strftime("%Y-%m-%d")` for a
non-negative Unix timestamp. -/
def utcDateString (ts : Nat) : String := isoOfDate (civilFromDays (ts / 86400))

/-- Value of a digit character, `none` when it is not a digit. -/
def digitVal (c : Char) : Option Nat :=
  if c.isDigit then some (c.toNat - 48) else none

/-- `datetime.date.fromisoformat`: accepts exactly `YYYY-MM-DD` with a
valid calendar date, `none` (a `ValueError` in Python) otherwise. -/
def parseIso (s : String) : Option Date :=
  match s.data with
  | [y1, y2, y3, y4, h1, m1, m2, h2, d1, d2] =>
    if h1 == '-' && h2 == '-' then
      match digitVal y1, digitVal y2, digitVal y3, digitVal y4,
            digitVal m1, digitVal m2, digitVal d1, digitVal d2 with
      | some a, some b, some c, some d, some e, some f, some g, some h =>
        let y := ((a * 10 + b) * 10 + c) * 10 + d
        let m := e * 10 + f
        let dy := g * 10 + h
        if 1 ≤ y && 1 ≤ m && m ≤ 12 && 1 ≤ dy && dy ≤ daysInMonth y m then
          some { year := y, month := m, day := dy }
        else none
      | _, _, _, _, _, _, _, _ => none
    else none
  | _ => none

/-! ### External data gateway (`itinerary_agent.py`) -/

/-- A Python exception escaping a gateway call. -/
inductive PyErr where
  | transport
  | httpStatus
  | valueError
deriving DecidableEq, Repr

/-- Outcome of one `requests.get`: either the request itself raises, or a
response with a status code and decoded JSON body arrives. -/
inductive HResp (α : Type) where
  | transportFail
  | resp (status : Nat) (body : α)
deriving DecidableEq, Repr

/-- One geocoding hit (`data[0]` of the direct-geocoding payload). -/
structure GeoHit where
  lat : ℚ
  lon : ℚ
deriving DecidableEq, Repr

/-- One element of the One Call 3.0 `daily` array. -/
structure OneCallDay where
  dtUnix : Nat
  t_min : Option ℚ
  t_max : Option ℚ
  pop : Option ℚ
deriving DecidableEq, Repr

/-- One element of the 5-day/3-hour forecast `list` array. -/
structure F5Entry where
  dt_txt : Option String
  temp : Option ℚ
  temp_min : Option ℚ
  temp_max : Option ℚ
  pop : Option ℚ
deriving DecidableEq, Repr

/-- The external world one dialog step can observe: presence of the
OpenWeather credential, the Hugging Face generation result (`none` when
the client is unconfigured, the call raises, or returns a non-string),
the index drawn by `random.choice`, and the three HTTP endpoints'
responses. -/
structure Env where
  hasKey : Bool
  hfText : Option String
  randIdx : Nat
  geocodeResp : HResp (List GeoHit)
  onecallResp : HResp (List OneCallDay)
  forecast5Resp : HResp (List F5Entry)
deriving DecidableEq, Repr

/-- `_FUN_FACTS`. -/
def _FUN_FACTS (key : String) : Option (List String) :=
  if key == "goa" then
    some
      [("Goa was under Portuguese rule for more than four centuries until 1961."),
       ("The Basilica of Bom Jesus in Old Goa is a UNESCO World Heritage Site."),
       ("Goa’s coastline spans about 100 km with beaches like Baga and Calangute.")]
  else none

/-- `fun_fact(place)`: Hugging Face text when available and non-blank,
else a random pick from the curated table, else a templated sentence. -/
def fun_fact (env : Env) (place : String) : String :=
  let viaTable : String :=
    match _FUN_FACTS (pyLower (pyStrip place)) with
    | some facts => facts.getD (env.randIdx % facts.length) ""
    | none => pyTitle place ++ " has a rich culture and popular local spots worth exploring."
  match env.hfText with
  | some t => if pyStrip t != "" then pyStrip t else viaTable
  | none => viaTable

/-- `geocode(place)`. -/
def geocode (env : Env) (place : String) : Except PyErr (Option (ℚ × ℚ)) :=
  if !env.hasKey then .ok none
  else
    match env.geocodeResp with
    | .transportFail => .error .transport
    | .resp status data =>
      if status ≠ 200 then .ok none
      else
        match data with
        | [] => .ok none
        | top :: _ => .ok (some (top.lat, top.lon))

/-- A produced per-day weather summary (the dicts both forecast paths
build: `{date, t_min, t_max, precip_prob}`). -/
structure WRec where
  date : String
  t_min : Option ℚ
  t_max : Option ℚ
  precip_prob : ℤ
deriving DecidableEq, Repr

/-- `_onecall_daily(lat, lon, days)`. -/
def _onecall_daily (env : Env) (lat lon : ℚ) (days : Nat) :
    Except PyErr (Option (List WRec)) :=
  match env.onecallResp with
  | .transportFail => .error .transport
  | .resp status daily =>
    if status ≠ 200 then .ok none
    else
      let out := (daily.take days).map (fun d =>
        { date := utcDateString d.dtUnix
          t_min := d.t_min
          t_max := d.t_max
          precip_prob := pyRound (qTimes100 (d.pop.getD 0)) : WRec })
      .ok (if out.isEmpty then none else some (out.take days))

/-- The per-day accumulator `by_day[key]` of `_forecast5_aggregate`. -/
structure DayAcc where
  temps : List ℚ
  mins : List ℚ
  maxs : List ℚ
  pops : List ℚ
deriving DecidableEq, Repr

def emptyAcc : DayAcc := { temps := [], mins := [], maxs := [], pops := [] }

/-- Append one forecast entry's fields to a day's accumulator (the four
conditional `append` calls of the loop body). -/
def pushEntry (b : DayAcc) (e : F5Entry) : DayAcc :=
  { temps := b.temps ++ (match e.temp with | some t => [t] | none => [])
    mins := b.mins ++ (match e.temp_min with | some t => [t] | none => [])
    maxs := b.maxs ++ (match e.temp_max with | some t => [t] | none => [])
    pops := b.pops ++ [e.pop.getD 0] }

/-- The day key of an entry: `dt_txt.split(" ")[0]`, skipping entries with
a missing or empty `dt_txt`. -/
def dayKeyOf (e : F5Entry) : Option String :=
  match e.dt_txt with
  | none => none
  | some s => if s == "" then none else some (beforeFirstSpace s)

/-- `by_day.setdefault(key, …)` followed by the appends: update the
association list at `k`, creating the entry at the end on first sight. -/
def updateAcc : List (String × DayAcc) → String → F5Entry → List (String × DayAcc)
  | [], k, e => [(k, pushEntry emptyAcc e)]
  | (k0, b) :: rest, k, e =>
    if k0 == k then (k0, pushEntry b e) :: rest
    else (k0, b) :: updateAcc rest k e

/-- One iteration of the `for item in data.get("list", [])` loop. -/
def addEntry (m : List (String × DayAcc)) (e : F5Entry) : List (String × DayAcc) :=
  match dayKeyOf e with
  | none => m
  | some k => updateAcc m k e

/-- Lookup in the association list (`by_day[day]`). -/
def lookupAcc (m : List (String × DayAcc)) (k : String) : DayAcc :=
  match m.find? (fun p => p.1 == k) with
  | some p => p.2
  | none => emptyAcc

/-- The summary dict built for one day of `_forecast5_aggregate`. -/
def mkDayRec (day : String) (b : DayAcc) : WRec :=
  { date := day
    t_min := if !b.mins.isEmpty then some (listMinQ b.mins)
             else if !b.temps.isEmpty then some (listMinQ b.temps) else none
    t_max := if !b.maxs.isEmpty then some (listMaxQ b.maxs)
             else if !b.temps.isEmpty then some (listMaxQ b.temps) else none
    precip_prob := if !b.pops.isEmpty then pyRound (qTimes100 (listMaxQ b.pops)) else 0 }

/-- `_forecast5_aggregate(lat, lon, days)`: `raise_for_status`, then group
the 3-hourly entries by calendar day and summarise each day. -/
def _forecast5_aggregate (env : Env) (lat lon : ℚ) (days : Nat) :
    Except PyErr (List WRec) :=
  match env.forecast5Resp with
  | .transportFail => .error .transport
  | .resp status items =>
    if 400 ≤ status then .error .httpStatus
    else
      let m := items.foldl addEntry []
      .ok (((sortStrings (m.map Prod.fst)).take days).map
        (fun day => mkDayRec day (lookupAcc m day)))

/-- Index of the first record whose parsed date is `≥ sd`, evaluated
left to right exactly as the generator expression does: a record with an
unparseable date reached before a hit raises `ValueError`; `none` when no
record qualifies (Python then uses the default `0`). -/
def firstIdxGE : List WRec → Date → Except PyErr (Option Nat)
  | [], _ => .ok none
  | d :: rest, sd =>
    match parseIso d.date with
    | none => .error .valueError
    | some dd =>
      if dateLE sd dd then .ok (some 0)
      else
        match firstIdxGE rest sd with
        | .error e => .error e
        | .ok none => .ok none
        | .ok (some i) => .ok (some (i + 1))

/-- The `Optional[str]` falsiness test `if not s:` for strings. -/
def blankO (o : Option String) : Bool := o.getD "" == ""

/-- Slice `lst[idx : idx + days]` after locating the start date. -/
def sliceFrom (lst : List WRec) (sd : Date) (days : Nat) :
    Except PyErr (List WRec) :=
  match firstIdxGE lst sd with
  | .error e => .error e
  | .ok idx? => .ok ((lst.drop (idx?.getD 0)).take days)

/-- `daily_weather(lat, lon, days, start_date)`. -/
def daily_weather (env : Env) (lat lon : ℚ) (days : Nat)
    (start_date : Option String) : Except PyErr (List WRec) :=
  if !env.hasKey then .ok []
  else
    match _onecall_daily env lat lon days with
    | .error e => .error e
    | .ok oc? =>
      let oc := oc?.getD []
      if !oc.isEmpty then
        if blankO start_date then .ok oc
        else
          match parseIso (start_date.getD "") with
          | none => .error .valueError
          | some sd => sliceFrom oc sd days
      else
        match _forecast5_aggregate env lat lon days with
        | .error e => .error e
        | .ok forecast5 =>
          if blankO start_date then .ok forecast5
          else
            match parseIso (start_date.getD "") with
            | none => .error .valueError
            | some sd => sliceFrom forecast5 sd days

/-! ### Itinerary composer -/

/-- `_ACTIVITY_MAP` as a lookup: the fixed 3-item activity list of a
recognised preference tag, `[]` (`dict.get(p, [])`) otherwise. -/
def _ACTIVITY_MAP (p : String) : List String :=
  if p == "nightlife" then
    [("evening at a popular club area"), ("sunset beach shacks"), ("live music venue")]
  else if p == "food" then
    [("local seafood lunch"), ("street food crawl"), ("heritage café tasting")]
  else if p == "shopping" then
    [("local market for handicrafts"), ("flea market visit"), ("souvenir boutiques")]
  else if p == "historical places" then
    [("old town walking tour"), ("heritage church/fort visit"), ("museum hour")]
  else if p == "natural places" then
    [("beach and coastline walk"), ("nature trail / waterfall"), ("sunrise viewpoint")]
  else if p == "street life" then
    [("promenade stroll"), ("photo walk"), ("local square hangout")]
  else if p == "famous places" then
    [("top landmarks circuit"), ("iconic photo spots"), ("must-see square/fort")]
  else []

/-- The default pool used when no preference contributes an activity. -/
def defaultPool : List String :=
  [("city highlights tour"), ("local food tasting"), ("market visit"), ("sunset viewpoint")]

/-- The activity pool of `build_itinerary`: concatenation over the
lower-cased preferences, default pool when empty. -/
def poolOf (preferences : List String) : List String :=
  let pool := (preferences.map pyLower).flatMap _ACTIVITY_MAP
  if pool.isEmpty then defaultPool else pool

/-- The weather clause `tip` of one itinerary line. -/
def dayTip (w : Option WRec) : String :=
  match w with
  | some r =>
    match r.t_min, r.t_max with
    | some a, some b =>
      "weather is ~" ++ toString (pyRound (qAvg2 a b)) ++ "°C with rain chance " ++
        toString r.precip_prob ++ "%"
    | _, _ => "weather details unavailable"
  | none => "weather details unavailable"

/-- One line of the plan before the final-day suffix. -/
def dayLine (destination : String) (pool : List String) (weather : List WRec)
    (i : Nat) : String :=
  "Day " ++ toString (i + 1) ++ ": " ++ pool.getD (i % pool.length) "" ++ " in " ++
    pyTitle destination ++ " — " ++ dayTip weather[i]? ++ "."

/-- `plan[-1] += suffix` guarded by `if plan:`. -/
def appendToLast : List String → String → List String
  | [], _ => []
  | [x], suffix => [x ++ suffix]
  | x :: y :: rest, suffix => x :: appendToLast (y :: rest) suffix

/-- `build_itinerary(destination, days, people, preferences, weather)`. -/
def build_itinerary (destination : String) (days : Nat) (people : Nat)
    (preferences : List String) (weather : List WRec) : List String :=
  let pool := poolOf preferences
  let plan := (List.range days).map (dayLine destination pool weather)
  appendToLast plan (" Departure planning for " ++ toString people ++ " traveler(s).")

/-- `plan_trip(destination, days, people, preferences, start_date)`. -/
def plan_trip (env : Env) (destination : String) (days : Nat) (people : Nat)
    (preferences : List String) (start_date : Option String) :
    Except PyErr (String × List String) :=
  let fact := fun_fact env destination
  match geocode env destination with
  | .error e => .error e
  | .ok coords =>
    let weatherRes : Except PyErr (List WRec) :=
      match coords with
      | some (lat, lon) => daily_weather env lat lon days start_date
      | none => .ok []
    match weatherRes with
    | .error e => .error e
    | .ok weather_list =>
      .ok ("Wow, " ++ pyTitle destination ++ " is a nice place — fun fact: " ++ fact,
           build_itinerary destination days people preferences weather_list)

/-! ### Dialog state machine (`travel_graph.py`) -/

/-- Transcript entry tag. -/
inductive Role where
  | human
  | ai
deriving DecidableEq, Repr

/-- One transcript entry (`HumanMessage` / `AIMessage` content). -/
structure Msg where
  role : Role
  content : String
deriving DecidableEq, Repr

def aiMsg (c : String) : Msg := { role := Role.ai, content := c }

def humanMsg (c : String) : Msg := { role := Role.human, content := c }

/-- The `ui` dict: empty, or the preference-checkbox directive. -/
inductive UiHint where
  | emptyHint
  | prefHint (options : List String)
deriving DecidableEq, Repr

/-- The `ui_hint` dict literal built at stages 4 and 5. -/
def prefUiHint : UiHint :=
  UiHint.prefHint
    [("nightlife"), ("food"), ("shopping"), ("historical places"),
     ("natural places"), ("street life"), ("famous places")]

/-- `TravelState` (`total=False` keys read through `.get`: absent is
`none` for scalars, `[]` for the lists, the empty dict for `ui`). -/
structure TravelState where
  messages : List Msg
  input_text : String
  ui : UiHint
  name : Option String
  destination : Option String
  days : Option Nat
  people : Option Nat
  start_date : Option String
  preferences : List String
  itinerary : List String
deriving DecidableEq, Repr

/-- The fresh per-session state the server creates on first contact. -/
def emptyState : TravelState :=
  { messages := [], input_text := "", ui := UiHint.emptyHint, name := none
    destination := none, days := none, people := none, start_date := none
    preferences := [], itinerary := [] }

/-- The `Optional[int]` falsiness test `if not n:` (absent or zero). -/
def zeroO (o : Option Nat) : Bool := o.getD 0 == 0

/-- Stage 5 comma parsing:
`[x.strip().lower() for x in user_text.split(",") if x.strip()]`. -/
def parseChosen (userText : String) : List String :=
  (pySplitComma userText).filterMap
    (fun x => if pyStrip x == "" then none else some (pyLower (pyStrip x)))

/-- The local `days`/`people` pair after stage 3 extraction (the
`if len(nums) >= 2 / elif … == 1` cascade over the current slots). -/
def extractedDP (s : TravelState) (userText : String) : Option Nat × Option Nat :=
  if userText != "" then
    let nums := extractNumbers userText
    if nums.length ≥ 2 then (some (nums.getD 0 0), some (nums.getD 1 0))
    else if nums.length == 1 && zeroO s.days then (some (nums.getD 0 0), s.people)
    else if nums.length == 1 && zeroO s.people then (s.days, some (nums.getD 0 0))
    else (s.days, s.people)
  else (s.days, s.people)

/-- Stage 6 (`# 6) Plan itinerary`): run the composer and store the final
assistant message, the preferences and the itinerary, clearing `ui`. -/
def runItineraryStage (env : Env) (s : TravelState) (prefs : List String) :
    Except PyErr TravelState :=
  match plan_trip env (s.destination.getD "") (s.days.getD 0) (s.people.getD 0)
      prefs s.start_date with
  | .error e => .error e
  | .ok (opening, itinerary) =>
    .ok { s with
      messages := s.messages ++
        [aiMsg (String.intercalate "\n"
          (("That\x27s great—planning your itinerary now.") :: opening :: itinerary))]
      preferences := prefs
      itinerary := itinerary
      ui := UiHint.emptyHint }

/-- `travel_node(state)`: the node function.  The returned record is the
node's returned partial dict completed with the incoming state's values
for every key the dict omits (the slot channels are `LastValue`: a
returned key replaces, an omitted key persists).  Its `messages` field
is the node's returned *list* `messages + [ai]` — the prior transcript
plus exactly one new assistant entry — and is not yet the next
transcript: the graph afterwards applies the `operator.add` reducer
annotated on the `messages` channel to it (see `graphInvoke`). -/
def travel_node (env : Env) (s : TravelState) : Except PyErr TravelState :=
  let user_text := pyStrip s.input_text
  -- 1) Name
  if blankO s.name then
    if user_text != "" then
      let nm := pyTitle user_text
      .ok { s with
        messages := s.messages ++
          [aiMsg ("Hi " ++ nm ++ ", where are you planning to go on a trip?")]
        name := some nm }
    else
      .ok { s with messages := s.messages ++ [aiMsg ("Hi, please state your name.")] }
  -- 2) Destination
  else if blankO s.destination then
    if user_text != "" then
      let dest := pyTitle (pyStrip user_text)
      .ok { s with
        messages := s.messages ++
          [aiMsg ("Wow, " ++ dest ++ " is a nice place." ++
            " How many days and people are going on the trip?")]
        destination := some dest }
    else
      .ok { s with
        messages := s.messages ++
          [aiMsg ("Please tell the destination city or place.")] }
  -- 3) Days & People
  else if zeroO s.days || zeroO s.people then
    let dp := extractedDP s user_text
    if zeroO dp.1 || zeroO dp.2 then
      .ok { s with
        messages := s.messages ++
          [aiMsg ("Please specify trip length and group size, e.g., \x275 days and 2 people\x27.")] }
    else
      .ok { s with
        messages := s.messages ++
          [aiMsg ("Great. What is the trip start date? Please provide in YYYY-MM-DD format.")]
        days := dp.1
        people := dp.2 }
  -- 4) Start Date
  else if blankO s.start_date then
    if user_text != "" then
      .ok { s with
        messages := s.messages ++
          [aiMsg ("One last thing—select preferences from the checkboxes, then send.")]
        start_date := some (pyStrip user_text)
        ui := prefUiHint }
    else
      .ok { s with
        messages := s.messages ++
          [aiMsg ("Please provide the trip start date in YYYY-MM-DD format.")] }
  -- 5) Preferences, falling through to 6
  else if s.preferences.isEmpty then
    let chosen := if user_text != "" then parseChosen user_text else []
    if chosen.isEmpty then
      .ok { s with
        messages := s.messages ++
          [aiMsg ("Please select your preferences using the checkboxes.")]
        ui := prefUiHint }
    else runItineraryStage env s chosen
  else runItineraryStage env s s.preferences

/-- One invocation of the compiled graph (`graph.invoke` in `server.py`):
the node's returned dict is folded into the state channel by channel.
The slot channels are `LastValue`, so there the returned value replaces;
`messages` is annotated `Annotated[List, operator.add]`, so the node's
returned list is *added* to the existing transcript — the next
transcript is `old ++ (old ++ [ai])`. -/
def graphInvoke (env : Env) (s : TravelState) : Except PyErr TravelState :=
  match travel_node env s with
  | .error e => .error e
  | .ok r => .ok { r with messages := s.messages ++ r.messages }

/-- `advance(state, userText)`: the spec's public contract, one graph
invocation with the current utterance already recorded in the state (the
caller sets `input_text` and appends the human entry beforehand). -/
def advance (env : Env) (s : TravelState) : Except PyErr TravelState :=
  graphInvoke env s

/-- The transport-layer turn preparation (`server.py`): append the human
entry and store the utterance before invoking the machine. -/
def userTurn (s : TravelState) (t : String) : TravelState :=
  { s with messages := s.messages ++ [humanMsg t], input_text := t }

/-- Dialog states reachable by a session: the fresh state, then any
number of turns, each a `userTurn` followed by a normally-returning
`travel_node` invocation under some environment. -/
inductive ReachableState : TravelState → Prop where
  | init : ReachableState emptyState
  | step {s : TravelState} {env : Env} {t : String} {s' : TravelState} :
      ReachableState s → travel_node env (userTurn s t) = .ok s' →
      ReachableState s'

/-! ### Statement-level predicates -/

/-- The final-day suffix of `build_itinerary`. -/
def departSuffix (people : Nat) : String :=
  " Departure planning for " ++ toString people ++ " traveler(s)."

/-- The comma parsing of stage 5 applied to the state's utterance,
including the `if user_text else []` guard. -/
def chosenOf (s : TravelState) : List String :=
  if pyStrip s.input_text != "" then parseChosen (pyStrip s.input_text) else []

/-- Whether this invocation reaches stage 6 (all slots resolved and a
non-empty preference list available), i.e. the itinerary stage runs. -/
def itinStageRuns (s : TravelState) : Bool :=
  !blankO s.name && !blankO s.destination && !zeroO s.days && !zeroO s.people &&
    !blankO s.start_date && (!s.preferences.isEmpty || !(chosenOf s).isEmpty)

/-- Whether this invocation re-prompts (the current stage does not
advance). -/
def repromptCase (s : TravelState) : Bool :=
  let ut := pyStrip s.input_text
  if blankO s.name then ut == ""
  else if blankO s.destination then ut == ""
  else if zeroO s.days || zeroO s.people then
    (let dp := extractedDP s ut
     zeroO dp.1 || zeroO dp.2)
  else if blankO s.start_date then ut == ""
  else if s.preferences.isEmpty then (chosenOf s).isEmpty
  else false

/-- The slot-resolution order invariant of the spec's data model. -/
def slotOrderInv (s : TravelState) : Prop :=
  (blankO s.destination = false → blankO s.name = false) ∧
  ((zeroO s.days = false ∨ zeroO s.people = false) → blankO s.destination = false) ∧
  (zeroO s.days = false ↔ zeroO s.people = false) ∧
  (blankO s.start_date = false → zeroO s.days = false) ∧
  (s.preferences ≠ [] → blankO s.start_date = false) ∧
  (s.itinerary ≠ [] ↔ s.preferences ≠ [])

/-- Numeric slots hold positive values whenever present. -/
def slotBounds (s : TravelState) : Prop :=
  (∀ d, s.days = some d → 1 ≤ d) ∧ (∀ p, s.people = some p → 1 ≤ p)

/-- A resolved slot keeps its value across the invocation. -/
def slotsPreserved (s s' : TravelState) : Prop :=
  (blankO s.name = false → s'.name = s.name) ∧
  (blankO s.destination = false → s'.destination = s.destination) ∧
  (zeroO s.days = false ∧ zeroO s.people = false →
    s'.days = s.days ∧ s'.people = s.people) ∧
  (blankO s.start_date = false → s'.start_date = s.start_date) ∧
  (s.preferences ≠ [] → s'.preferences = s.preferences)

/-- The induction invariant of reachable dialog states. -/
def dialogInv (s : TravelState) : Prop := slotOrderInv s ∧ slotBounds s

/-! ### Concrete fixtures -/

/-- An environment with no OpenWeather credential and no Hugging Face
backend: every network field is irrelevant. -/
def noNetEnv : Env :=
  { hasKey := false, hfText := none, randIdx := 0
    geocodeResp := HResp.transportFail, onecallResp := HResp.transportFail
    forecast5Resp := HResp.transportFail }

/-- `noNetEnv` with a different `random.choice` outcome. -/
def noNetEnvR1 : Env := { noNetEnv with randIdx := 1 }

/-- A state with every slot resolved and preferences selected. -/
def readyState : TravelState :=
  { emptyState with
    name := some ("Alex"), destination := some ("Goa"), days := some 5
    people := some 2, start_date := some ("2025-03-01")
    preferences := [("food")] }

/-- Credential present; geocoding succeeds; the long-range daily source
returns an empty payload; the fine-grained fallback answers 500. -/
def c1Env : Env :=
  { hasKey := true, hfText := none, randIdx := 0
    geocodeResp := HResp.resp 200 [{ lat := 15, lon := 74 }]
    onecallResp := HResp.resp 200 []
    forecast5Resp := HResp.resp 500 [] }

def c1wEnv2 : Env := { c1Env with geocodeResp := HResp.resp 404 [] }

def c1wEnv3 : Env := { c1Env with onecallResp := HResp.resp 500 [] }

def c1wEnv4 : Env := { c1Env with geocodeResp := HResp.transportFail }

/-- The single long-range day `c1wEnv6` serves. -/
def c1wDay : List OneCallDay :=
  [{ dtUnix := 1740787200, t_min := some 10, t_max := some 12, pop := none }]

def c1wEnv6 : Env := { c1Env with onecallResp := HResp.resp 200 c1wDay }

/-- A state sitting at the preferences stage with an empty `ui` dict and
an empty utterance. -/
def c2State : TravelState :=
  { emptyState with
    name := some ("Alex"), destination := some ("Goa"), days := some 5
    people := some 2, start_date := some ("2025-03-01") }

/-- What the preferences re-prompt returns on `c2State`. -/
def c2Result : TravelState :=
  { c2State with
    messages := [aiMsg ("Please select your preferences using the checkboxes.")]
    ui := prefUiHint }

/-- A stage-two re-prompt state that already carries a two-entry
transcript. -/
def c2DupState : TravelState :=
  { emptyState with
    messages := [humanMsg ("Alex"),
      aiMsg ("Hi Alex, where are you planning to go on a trip?")]
    name := some ("Alex") }

/-- What one graph invocation returns on `c2DupState`: the reducer adds
the node's returned list, duplicating the prior transcript before the
new assistant entry. -/
def c2DupResult : TravelState :=
  { c2DupState with
    messages := c2DupState.messages ++ (c2DupState.messages ++
      [aiMsg ("Please tell the destination city or place.")]) }

/-- Credential present but the geocoding request itself fails at
transport level. -/
def c2ErrEnv : Env := { noNetEnv with hasKey := true }

/-- The length-and-size stage with both numeric slots empty and the
utterance `"3"`. -/
def c3State : TravelState :=
  { emptyState with
    input_text := ("3"), name := some ("Alex"), destination := some ("Goa") }

def c3StateTwoNums : TravelState :=
  { c3State with input_text := ("5 days and 2 people 9") }

/-- Fine-grained entries over two calendar days (one with a missing
`dt_txt`, skipped by the loop). -/
def c7Items : List F5Entry :=
  [ { dt_txt := some ("2025-03-02 00:00:00"), temp := some 21, temp_min := some 20
      temp_max := some 22, pop := some (mkRat 1 4) }
  , { dt_txt := some ("2025-03-01 03:00:00"), temp := some 18, temp_min := some 17
      temp_max := some 19, pop := some (mkRat 3 4) }
  , { dt_txt := some ("2025-03-02 06:00:00"), temp := some 25, temp_min := some 24
      temp_max := some 26, pop := none }
  , { dt_txt := none, temp := some 99, temp_min := some 99
      temp_max := some 99, pop := some 1 } ]

def c7Env : Env :=
  { hasKey := true, hfText := none, randIdx := 0
    geocodeResp := HResp.transportFail
    onecallResp := HResp.resp 200 []
    forecast5Resp := HResp.resp 200 c7Items }

/-- A state at the preferences stage whose utterance selects two tags. -/
def c8State : TravelState :=
  { c2State with input_text := ("food, Shopping ,  ") }

/-- The entries the loop files under calendar day `k`. -/
def dayEntries (items : List F5Entry) (k : String) : List F5Entry :=
  items.filter (fun e => dayKeyOf e == some k)

/-- The accumulator contents described directly: the present fields of a
run of entries, in order (`pop` defaulted to `0`). -/
def accOf (l : List F5Entry) : DayAcc :=
  { temps := l.filterMap F5Entry.temp
    mins := l.filterMap F5Entry.temp_min
    maxs := l.filterMap F5Entry.temp_max
    pops := l.map (fun e => e.pop.getD 0) }

/-- Concatenation of accumulators, fieldwise. -/
def accAppend (a b : DayAcc) : DayAcc :=
  { temps := a.temps ++ b.temps, mins := a.mins ++ b.mins
    maxs := a.maxs ++ b.maxs, pops := a.pops ++ b.pops }

/-- Result of the opening re-prompt on the fresh state. -/
def c2w0 : TravelState :=
  { emptyState with messages := [aiMsg ("Hi, please state your name.")] }

/-- The length-and-size stage reached with an utterance whose first
number is `0`. -/
def c10State : TravelState :=
  { emptyState with
    input_text := ("0 days and 2 people"), name := some ("Alex")
    destination := some ("Goa") }

deriving instance DecidableEq for Except

/-! ### Helper lemmas: strings and itinerary lines -/

theorem str_append_nil (s : String) : s ++ ("") = s := by
  cases s with
  | mk data => show String.mk (data ++ []) = String.mk data
               rw [List.append_nil]

theorem str_append_assoc (a b c : String) : a ++ b ++ c = a ++ (b ++ c) := by
  cases a
  cases b
  cases c
  show String.mk (_ ++ _ ++ _) = String.mk (_ ++ (_ ++ _))
  rw [List.append_assoc]

theorem appendToLast_length (l : List String) (suffix : String) :
    (appendToLast l suffix).length = l.length := by
  induction l with
  | nil => rfl
  | cons x rest ih =>
    cases rest with
    | nil => rfl
    | cons y t => simpa [appendToLast] using ih

theorem appendToLast_getD (l : List String) (suffix : String) (i : Nat)
    (h : i < l.length) :
    (appendToLast l suffix).getD i ("") =
      l.getD i ("") ++ (if i + 1 = l.length then suffix else ("")) := by
  induction l generalizing i with
  | nil => simp at h
  | cons x rest ih =>
    cases rest with
    | nil =>
      have hi : i = 0 := by simp at h; omega
      subst hi
      simp [appendToLast]
    | cons y t =>
      cases i with
      | zero =>
        have hlen : ¬ (0 + 1 = (x :: y :: t).length) := by simp
        simp [appendToLast, hlen, str_append_nil]
      | succ j =>
        have hj : j < (y :: t).length := by simpa using h
        have := ih j hj
        simpa [appendToLast] using this

theorem range_map_getD (f : Nat → String) (n i : Nat) (h : i < n) :
    (((List.range n).map f).getD i ("")) = f i := by
  rw [List.getD_eq_getElem?_getD]
  rw [List.getElem?_eq_getElem (by simpa using h)]
  simp

theorem build_itinerary_len (destination : String) (days people : Nat)
    (preferences : List String) (weather : List WRec) :
    (build_itinerary destination days people preferences weather).length = days := by
  unfold build_itinerary
  rw [appendToLast_length]
  simp

theorem build_itinerary_getD (destination : String) (days people : Nat)
    (preferences : List String) (weather : List WRec) (i : Nat) (h : i < days) :
    (build_itinerary destination days people preferences weather).getD i ("") =
      dayLine destination (poolOf preferences) weather i ++
        (if i + 1 = days then departSuffix people else ("")) := by
  unfold build_itinerary
  rw [appendToLast_getD _ _ _ (by simpa using h)]
  rw [range_map_getD _ _ _ h]
  simp [departSuffix]

/-- C6: every composed line is exactly
`"Day {i+1}: {activity} in {Destination, title-cased} — {weather clause}."`,
where the weather clause shows the rounded average of the day's min and
max temperature together with the precipitation probability when both
temperatures exist and is the literal `"weather details unavailable"`
otherwise (`dayTip`), and only the final line additionally ends with
`" Departure planning for {groupSize} traveler(s)."` after the period. -/
theorem itinerary_line_format (destination : String) (days people : Nat)
    (preferences : List String) (weather : List WRec) :
    (build_itinerary destination days people preferences weather).length = days ∧
    ∀ i, i < days →
      (build_itinerary destination days people preferences weather).getD i ("") =
        ("Day ") ++ toString (i + 1) ++ (": ") ++
          (poolOf preferences).getD (i % (poolOf preferences).length) ("") ++
          (" in ") ++ pyTitle destination ++ (" — ") ++ dayTip weather[i]? ++ (".") ++
          (if i + 1 = days then
            (" Departure planning for ") ++ toString people ++ (" traveler(s).")
          else ("")) := by
  refine ⟨build_itinerary_len _ _ _ _ _, fun i h => ?_⟩
  rw [build_itinerary_getD _ _ _ _ _ _ h]
  simp only [dayLine, departSuffix]

/-- Witness for C6 at a concrete input: day 2 of a 2-day food trip with
no weather data. -/
theorem itinerary_line_format_witness :
    (build_itinerary ("goa") 2 2 [("food")] []).getD 1 ("") =
      ("Day 2: street food crawl in Goa — weather details unavailable. Departure planning for 2 traveler(s).") :=
  ((itinerary_line_format ("goa") 2 2 [("food")] []).2 1 (by decide)).trans (by decide)

/-- C9: each recognised preference has a fixed 3-item activity list and
the default pool has 4 items; a preference list contributing nothing
yields the default pool; line `i` displays the activity
`pool[i % len(pool)]`; and with a single recognised preference the
activity selected for 0-indexed day 3 (the line labelled `Day 4`) equals
the one selected for day 0 (`Day 1`), which together with the previous
conjunct is the 7-day cyclic-reuse example. -/
theorem activity_pool_cycle :
    (∀ p, _ACTIVITY_MAP p ≠ [] → (_ACTIVITY_MAP p).length = 3) ∧
    defaultPool.length = 4 ∧
    (∀ preferences, ((preferences.map pyLower).flatMap _ACTIVITY_MAP) = [] →
      poolOf preferences = defaultPool) ∧
    (∀ destination days people preferences weather i, i < days →
      ∃ rest,
        (build_itinerary destination days people preferences weather).getD i ("") =
          ("Day ") ++ toString (i + 1) ++ (": ") ++
            (poolOf preferences).getD (i % (poolOf preferences).length) ("") ++ rest) ∧
    (∀ p, _ACTIVITY_MAP (pyLower p) ≠ [] →
      (poolOf [p]).getD (3 % (poolOf [p]).length) ("") =
        (poolOf [p]).getD (0 % (poolOf [p]).length) ("")) := by
  have hpool : ∀ p, _ACTIVITY_MAP (pyLower p) ≠ [] →
      poolOf [p] = _ACTIVITY_MAP (pyLower p) := by
    intro p h
    unfold poolOf
    simp [h]
  refine ⟨?_, rfl, ?_, ?_, ?_⟩
  · intro p h
    unfold _ACTIVITY_MAP at h ⊢
    split_ifs at h ⊢ <;> simp_all
  · intro preferences h
    unfold poolOf
    simp [h]
  · intro destination days people preferences weather i h
    refine ⟨(" in ") ++ (pyTitle destination ++ ((" — ") ++ (dayTip weather[i]? ++
      ((".") ++ (if i + 1 = days then departSuffix people else ("")))))), ?_⟩
    rw [build_itinerary_getD _ _ _ _ _ _ h]
    simp only [dayLine, str_append_assoc]
  · intro p h
    have h3 : (poolOf [p]).length = 3 := by
      rw [hpool p h]
      unfold _ACTIVITY_MAP at h ⊢
      split_ifs at h ⊢ <;> simp_all
    rw [h3]

/-- Witness for C9 at a concrete input: the single tag `"Food"` is
recognised and selects the same activity for days 0 and 3. -/
theorem activity_pool_cycle_witness :
    _ACTIVITY_MAP (pyLower ("Food")) ≠ [] ∧
    (poolOf [("Food")]).getD (3 % (poolOf [("Food")]).length) ("") =
      (poolOf [("Food")]).getD (0 % (poolOf [("Food")]).length) ("") :=
  ⟨by decide, activity_pool_cycle.2.2.2.2 ("Food") (by decide)⟩

/-- C8: at the preferences stage the utterance is split on commas, each
token trimmed and lower-cased, empty tokens dropped, so that
`"food, Shopping ,  "` yields `["food", "shopping"]`; an empty result
re-emits the preference `uiHint` with a re-prompt and leaves preferences
unresolved, a non-empty result is assigned and the itinerary stage runs
within the same invocation. -/
theorem preference_parsing :
    parseChosen (pyStrip ("food, Shopping ,  ")) = [("food"), ("shopping")] ∧
    ∀ env s, blankO s.name = false → blankO s.destination = false →
      zeroO s.days = false → zeroO s.people = false →
      blankO s.start_date = false → s.preferences = [] →
      ((chosenOf s).isEmpty = true →
        travel_node env s = .ok { s with
          messages := s.messages ++
            [aiMsg ("Please select your preferences using the checkboxes.")]
          ui := prefUiHint }) ∧
      ((chosenOf s).isEmpty = false →
        travel_node env s = runItineraryStage env s (chosenOf s)) := by
  refine ⟨by decide, ?_⟩
  intro env s h1 h2 h3 h4 h5 h6
  constructor
  · intro hc
    unfold travel_node
    simp [h1, h2, h3, h4, h5, h6, chosenOf] at hc ⊢
    intro hne hpar
    exact absurd (hc hne) hpar
  · intro hc
    unfold travel_node
    simp [h1, h2, h3, h4, h5, h6, chosenOf] at hc ⊢
    intro himp
    exact absurd (himp hc.1) hc.2

/-- Witness for C8 at a concrete input: the utterance
`"food, Shopping ,  "` selects two tags and stage 6 runs. -/
theorem preference_parsing_witness :
    chosenOf c8State = [("food"), ("shopping")] ∧
    travel_node noNetEnv c8State = runItineraryStage noNetEnv c8State (chosenOf c8State) :=
  ⟨by decide,
   (preference_parsing.2 noNetEnv c8State (by decide) (by decide) (by decide)
     (by decide) (by decide) rfl).2 (by decide)⟩

/-- C3, behaviour at the failing input: at the length-and-size stage with
both slots unresolved and the utterance `"3"`, `travel_node` re-prompts
and returns a state whose `days` and `people` are still `none` — the
assignment of the single extracted number to the local variable is
discarded because the returned dict omits it.  With `"5 days and 2
people 9"` the first two numbers are stored and the third is ignored. -/
theorem single_number_discarded :
    (travel_node noNetEnv c3State = .ok { c3State with
      messages := [aiMsg ("Please specify trip length and group size, e.g., \x275 days and 2 people\x27.")] }) ∧
    c3State.days = none ∧ c3State.people = none ∧
    (travel_node noNetEnv c3StateTwoNums = .ok { c3StateTwoNums with
      messages := [aiMsg ("Great. What is the trip start date? Please provide in YYYY-MM-DD format.")],
      days := some 5, people := some 2 }) := by
  refine ⟨by decide, rfl, rfl, by decide⟩

/-- C4, amended: `advance` is a pure function of the state, the input
and the external environment (provider responses and the `random.choice`
outcome); whenever the itinerary stage does not run, the result does not
depend on the environment at all. -/
theorem advance_env_independent :
    ∀ e1 e2 s, itinStageRuns s = false → travel_node e1 s = travel_node e2 s := by
  intro e1 e2 s h
  simp only [travel_node]
  split_ifs <;> try rfl
  all_goals
    exfalso
    simp [itinStageRuns, chosenOf] at h
    simp_all

/-- Witness for C4 at a concrete input: on the fresh state the result is
the same under two different environments. -/
theorem advance_env_independent_witness :
    itinStageRuns emptyState = false ∧
    travel_node noNetEnv emptyState = travel_node noNetEnvR1 emptyState :=
  ⟨by decide, advance_env_independent noNetEnv noNetEnvR1 emptyState (by decide)⟩

/-- Frame analysis of the node function: the list the node returns under
`messages` is the prior transcript plus exactly one assistant entry, and
on a re-prompt every non-transcript key of the returned record is
unchanged except the preferences-stage `ui` write. -/
theorem travel_node_frame :
    ∀ env s s', travel_node env s = .ok s' →
      (∃ c, s'.messages = s.messages ++ [aiMsg c]) ∧
      (repromptCase s = true →
        s'.name = s.name ∧ s'.destination = s.destination ∧ s'.days = s.days ∧
        s'.people = s.people ∧ s'.start_date = s.start_date ∧
        s'.preferences = s.preferences ∧ s'.itinerary = s.itinerary ∧
        s'.input_text = s.input_text ∧ (s'.ui = s.ui ∨ s'.ui = prefUiHint)) := by
  intro env s s' h
  simp only [travel_node] at h
  split_ifs at h
  all_goals
    first
    | (injection h with h
       subst h
       refine ⟨⟨_, rfl⟩, ?_⟩
       intro hrep
       simp_all [repromptCase, chosenOf])
    | (unfold runItineraryStage at h
       split at h
       · exact Except.noConfusion h
       · (injection h with h
          subst h
          refine ⟨⟨_, rfl⟩, ?_⟩
          intro hrep
          simp_all [repromptCase, chosenOf]))

/-- C2, amended: one invocation of `advance` adds the node's returned
list to the transcript channel through the `operator.add` reducer — the
next transcript is the prior transcript followed by a copy of itself
plus exactly one new assistant entry (so exactly one assistant entry is
gained only when the prior transcript was empty); and a non-advancing
invocation changes no slot, itinerary or input field, except that the
preferences re-prompt also re-sets `ui` to the preference hint. -/
theorem graph_transcript_growth :
    ∀ env s s', graphInvoke env s = .ok s' →
      (∃ c, s'.messages = s.messages ++ (s.messages ++ [aiMsg c])) ∧
      (repromptCase s = true →
        s'.name = s.name ∧ s'.destination = s.destination ∧ s'.days = s.days ∧
        s'.people = s.people ∧ s'.start_date = s.start_date ∧
        s'.preferences = s.preferences ∧ s'.itinerary = s.itinerary ∧
        s'.input_text = s.input_text ∧ (s'.ui = s.ui ∨ s'.ui = prefUiHint)) := by
  intro env s s' h
  unfold graphInvoke at h
  cases ht : travel_node env s with
  | error e =>
    rw [ht] at h
    exact Except.noConfusion h
  | ok r =>
    rw [ht] at h
    injection h with h
    subst h
    obtain ⟨⟨c, hc⟩, hframe⟩ := travel_node_frame env s r ht
    constructor
    · exact ⟨c, by simp [hc]⟩
    · intro hrep
      have hf := hframe hrep
      simpa using hf

theorem titleGo_length : ∀ (b : Bool) (l : List Char), (titleGo b l).length = l.length
  | _, [] => rfl
  | b, c :: rest => by simp [titleGo, titleGo_length _ rest]

theorem pyTitle_ne_empty (s : String) (h : s ≠ ("")) : pyTitle s ≠ ("") := by
  intro hc
  apply h
  cases s with
  | mk data =>
    have hlen : (titleGo false data).length = data.length := titleGo_length false data
    have : titleGo false data = [] := by
      have := congrArg String.data hc
      simpa [pyTitle] using this
    rw [this] at hlen
    have hdata : data = [] := List.eq_nil_of_length_eq_zero (by simpa using hlen.symm)
    rw [hdata]

theorem zeroO_false_bound (o : Option Nat) (h : zeroO o = false) :
    ∀ v, o = some v → 1 ≤ v := by
  intro v hv
  subst hv
  simp [zeroO] at h
  omega

theorem build_itinerary_ne_nil (destination : String) (days people : Nat)
    (preferences : List String) (weather : List WRec) (h : 0 < days) :
    build_itinerary destination days people preferences weather ≠ [] := by
  intro hc
  have := build_itinerary_len destination days people preferences weather
  rw [hc] at this
  simp at this
  omega

theorem plan_trip_ok_len (env : Env) (destination : String) (days people : Nat)
    (preferences : List String) (start_date : Option String) (opening : String)
    (itinerary : List String)
    (h : plan_trip env destination days people preferences start_date =
      .ok (opening, itinerary)) : itinerary.length = days := by
  unfold plan_trip at h
  dsimp only at h
  split at h
  all_goals try exact Except.noConfusion h
  all_goals split at h
  all_goals try exact Except.noConfusion h
  all_goals
    injection h with h
    have hsnd := congrArg Prod.snd h
    simp at hsnd
    rw [← hsnd]
    exact build_itinerary_len _ _ _ _ _

theorem inv_step (env : Env) (s s' : TravelState)
    (hInv : dialogInv s) (h : travel_node env s = .ok s') : dialogInv s' := by
  obtain ⟨⟨o1, o2, o3, o4, o5, o6⟩, b1, b2⟩ := hInv
  simp only [travel_node] at h
  split_ifs at h
  all_goals
    first
    | exact absurd rfl ‹¬ ([] : List String).isEmpty = true›
    | (injection h with h
       subst h
       first
       | exact ⟨⟨o1, o2, o3, o4, o5, o6⟩, b1, b2⟩
       | exact ⟨⟨fun hd => absurd ‹blankO s.name = true› (by simp [o1 hd]),
           o2, o3, o4, o5, o6⟩, b1, b2⟩
       | (have hname : blankO s.name = false := by simpa using ‹¬ blankO s.name = true›
          exact ⟨⟨fun _ => hname,
            fun hdp => absurd ‹blankO s.destination = true› (by simp [o2 hdp]),
            o3, o4, o5, o6⟩, b1, b2⟩)
       | (have hname : blankO s.name = false := by simpa using ‹¬ blankO s.name = true›
          have hdest : blankO s.destination = false := by
            simpa using ‹¬ blankO s.destination = true›
          have hd12 : zeroO (extractedDP s (pyStrip s.input_text)).1 = false ∧
              zeroO (extractedDP s (pyStrip s.input_text)).2 = false := by
            simpa using
              ‹¬ (zeroO (extractedDP s (pyStrip s.input_text)).1 ||
                  zeroO (extractedDP s (pyStrip s.input_text)).2) = true›
          exact ⟨⟨fun _ => hname, fun _ => hdest,
            ⟨fun _ => hd12.2, fun _ => hd12.1⟩, fun _ => hd12.1, o5, o6⟩,
            zeroO_false_bound _ hd12.1, zeroO_false_bound _ hd12.2⟩)
       | (have hname : blankO s.name = false := by simpa using ‹¬ blankO s.name = true›
          have hdest : blankO s.destination = false := by
            simpa using ‹¬ blankO s.destination = true›
          have hdp : zeroO s.days = false ∧ zeroO s.people = false := by
            simpa using ‹¬ (zeroO s.days || zeroO s.people) = true›
          exact ⟨⟨fun _ => hname, fun _ => hdest,
            ⟨fun _ => hdp.2, fun _ => hdp.1⟩, fun _ => hdp.1,
            fun hp' => absurd ‹blankO s.start_date = true› (by simp [o5 hp']),
            o6⟩, b1, b2⟩))
    | (unfold runItineraryStage at h
       split at h
       · exact Except.noConfusion h
       · (rename_i o_ it_ heq
          injection h with h
          subst h
          have hname : blankO s.name = false := by simpa using ‹¬ blankO s.name = true›
          have hdest : blankO s.destination = false := by
            simpa using ‹¬ blankO s.destination = true›
          have hdp : zeroO s.days = false ∧ zeroO s.people = false := by
            simpa using ‹¬ (zeroO s.days || zeroO s.people) = true›
          have hstart : blankO s.start_date = false := by
            simpa using ‹¬ blankO s.start_date = true›
          have hlen := plan_trip_ok_len _ _ _ _ _ _ _ _ heq
          have hdpos : 0 < s.days.getD 0 := by
            have hz := hdp.1
            simp [zeroO] at hz
            omega
          have hitin : it_ ≠ [] := by
            intro hnil
            rw [hnil] at hlen
            simp at hlen
            omega
          first
          | (have hPne : parseChosen (pyStrip s.input_text) ≠ [] := by
               simpa using ‹¬ (parseChosen (pyStrip s.input_text)).isEmpty = true›
             exact ⟨⟨fun _ => hname, fun _ => hdest,
               ⟨fun _ => hdp.2, fun _ => hdp.1⟩, fun _ => hdp.1,
               fun _ => hstart, iff_of_true hitin hPne⟩, b1, b2⟩)
          | (have hPne : s.preferences ≠ [] := by
               simpa using ‹¬ s.preferences.isEmpty = true›
             exact ⟨⟨fun _ => hname, fun _ => hdest,
               ⟨fun _ => hdp.2, fun _ => hdp.1⟩, fun _ => hdp.1,
               fun _ => hstart, iff_of_true hitin hPne⟩, b1, b2⟩)))

theorem slots_preserved_step (env : Env) (s s' : TravelState)
    (h : travel_node env s = .ok s') : slotsPreserved s s' := by
  simp only [travel_node] at h
  split_ifs at h
  all_goals
    first
    | exact absurd rfl ‹¬ ([] : List String).isEmpty = true›
    | (injection h with h
       subst h
       first
       | exact ⟨fun _ => rfl, fun _ => rfl, fun _ => ⟨rfl, rfl⟩, fun _ => rfl,
           fun _ => rfl⟩
       | exact ⟨fun hn => absurd ‹blankO s.name = true› (by simp [hn]),
           fun _ => rfl, fun _ => ⟨rfl, rfl⟩, fun _ => rfl, fun _ => rfl⟩
       | exact ⟨fun _ => rfl,
           fun hd => absurd ‹blankO s.destination = true› (by simp [hd]),
           fun _ => ⟨rfl, rfl⟩, fun _ => rfl, fun _ => rfl⟩
       | exact ⟨fun _ => rfl, fun _ => rfl,
           fun hdp => absurd ‹(zeroO s.days || zeroO s.people) = true›
             (by simp [hdp.1, hdp.2]),
           fun _ => rfl, fun _ => rfl⟩
       | exact ⟨fun _ => rfl, fun _ => rfl, fun _ => ⟨rfl, rfl⟩,
           fun hs => absurd ‹blankO s.start_date = true› (by simp [hs]),
           fun _ => rfl⟩)
    | (unfold runItineraryStage at h
       split at h
       · exact Except.noConfusion h
       · (injection h with h
          subst h
          first
          | exact ⟨fun _ => rfl, fun _ => rfl, fun _ => ⟨rfl, rfl⟩, fun _ => rfl,
              fun hp => absurd ‹s.preferences.isEmpty = true› (by simp [hp])⟩
          | exact ⟨fun _ => rfl, fun _ => rfl, fun _ => ⟨rfl, rfl⟩, fun _ => rfl,
              fun _ => rfl⟩))

theorem dialogInv_userTurn (s : TravelState) (t : String) :
    dialogInv (userTurn s t) ↔ dialogInv s := by
  simp [dialogInv, slotOrderInv, slotBounds, userTurn]

theorem reachable_inv : ∀ s, ReachableState s → dialogInv s := by
  intro s h
  induction h with
  | init =>
    refine ⟨⟨?_, ?_, ?_, ?_, ?_, ?_⟩, ?_, ?_⟩ <;>
      simp [emptyState, blankO, zeroO, slotOrderInv, slotBounds]
  | step hr hstep ih =>
    exact inv_step _ _ _ ((dialogInv_userTurn _ _).mpr ih) hstep

/-- C5: in every reachable dialog state the slots are resolved in the
strict order name → destination → length & size → start date →
preferences → itinerary; the itinerary is non-empty exactly when all
preceding slots are resolved; and one further invocation never
overwrites a slot that is already resolved. -/
theorem slot_resolution_order :
    ∀ s, ReachableState s →
      slotOrderInv s ∧
      (s.itinerary ≠ [] ↔
        (blankO s.name = false ∧ blankO s.destination = false ∧
         zeroO s.days = false ∧ zeroO s.people = false ∧
         blankO s.start_date = false ∧ s.preferences ≠ [])) ∧
      (∀ env t s', travel_node env (userTurn s t) = .ok s' → slotsPreserved s s') := by
  intro s hs
  have hInv := reachable_inv s hs
  obtain ⟨⟨o1, o2, o3, o4, o5, o6⟩, b1, b2⟩ := hInv
  refine ⟨⟨o1, o2, o3, o4, o5, o6⟩, ?_, ?_⟩
  · constructor
    · intro hit
      have hp := o6.mp hit
      have hstart := o5 hp
      have hdays := o4 hstart
      have hpeople := o3.mp hdays
      have hdest := o2 (Or.inl hdays)
      have hname := o1 hdest
      exact ⟨hname, hdest, hdays, hpeople, hstart, hp⟩
    · intro hall
      exact o6.mpr hall.2.2.2.2.2
  · intro env t s' h
    have hpres := slots_preserved_step env (userTurn s t) s' h
    simpa [slotsPreserved, userTurn] using hpres

/-- Witness for C5 at the initial state. -/
theorem slot_resolution_order_witness :
    slotOrderInv emptyState ∧
    (emptyState.itinerary ≠ [] ↔
      (blankO emptyState.name = false ∧ blankO emptyState.destination = false ∧
       zeroO emptyState.days = false ∧ zeroO emptyState.people = false ∧
       blankO emptyState.start_date = false ∧ emptyState.preferences ≠ [])) :=
  ⟨(slot_resolution_order emptyState ReachableState.init).1,
   (slot_resolution_order emptyState ReachableState.init).2.1⟩

/-- C10: at the length-and-size stage an extracted number equal to `0`
never resolves a slot — the invocation re-prompts and returns the state
with only the transcript extended; consequently every stored
`tripLengthDays` and `groupSize` value in a reachable state is at least
`1`. -/
theorem zero_never_resolves :
    (∀ env s, blankO s.name = false → blankO s.destination = false →
      (zeroO s.days || zeroO s.people) = true →
      ((2 ≤ (extractNumbers (pyStrip s.input_text)).length ∧
        ((extractNumbers (pyStrip s.input_text)).getD 0 0 = 0 ∨
         (extractNumbers (pyStrip s.input_text)).getD 1 0 = 0)) ∨
       extractNumbers (pyStrip s.input_text) = [0]) →
      travel_node env s = .ok { s with
        messages := s.messages ++
          [aiMsg ("Please specify trip length and group size, e.g., \x275 days and 2 people\x27.")] }) ∧
    (∀ s, ReachableState s →
      (∀ d, s.days = some d → 1 ≤ d) ∧ (∀ p, s.people = some p → 1 ≤ p)) := by
  constructor
  · intro env s h1 h2 h3 h4
    have hut : pyStrip s.input_text ≠ ("") := by
      intro hc
      rw [hc] at h4
      simp [extractNumbers, extractGo] at h4
    have hdp : (zeroO (extractedDP s (pyStrip s.input_text)).1 ||
        zeroO (extractedDP s (pyStrip s.input_text)).2) = true := by
      unfold extractedDP
      rcases h4 with ⟨hlen, hz⟩ | hone
      · simp [hut, hlen, zeroO]
        rcases hz with hz | hz
        · exact Or.inl (by simpa [List.getD_eq_getElem?_getD] using hz)
        · exact Or.inr (by simpa [List.getD_eq_getElem?_getD] using hz)
      · by_cases hzd : zeroO s.days = true
        · simp only [hone]
          simp [hut, hzd]
          simp [zeroO]
        · have hzd' : zeroO s.days = false := by simpa using hzd
          have hzp : zeroO s.people = true := by simpa [hzd'] using h3
          simp only [hone]
          simp [hut, hzd', hzp]
          simp [zeroO]
    simp only [travel_node]
    simp [h1, h2, h3, hdp]
  · intro s h
    exact (reachable_inv s h).2

/-- Witness for C10 at a concrete input (`"0 days and 2 people"`) and at
the initial state. -/
theorem zero_never_resolves_witness :
    travel_node noNetEnv c10State = .ok { c10State with
      messages := c10State.messages ++
        [aiMsg ("Please specify trip length and group size, e.g., \x275 days and 2 people\x27.")] } ∧
    (∀ d, emptyState.days = some d → 1 ≤ d) :=
  ⟨zero_never_resolves.1 noNetEnv c10State (by decide) (by decide) (by decide)
     (Or.inl (by decide)),
   (zero_never_resolves.2 emptyState ReachableState.init).1⟩

/-- Witness for C2 at a concrete input: the opening re-prompt on the
fresh (empty-transcript) state, on which the reducer yields exactly one
assistant entry and the name slot is preserved. -/
theorem graph_transcript_growth_witness :
    (∃ c, c2w0.messages = emptyState.messages ++
      (emptyState.messages ++ [aiMsg c])) ∧
    c2w0.name = emptyState.name :=
  ⟨(graph_transcript_growth noNetEnv emptyState c2w0 (by decide)).1,
   ((graph_transcript_growth noNetEnv emptyState c2w0 (by decide)).2 (by decide)).1⟩

/-- Counterexample to C2 as stated: on a two-entry transcript one
invocation of the graph gains two assistant entries, not one — the
`operator.add` reducer adds the node's full returned list, duplicating
the prior transcript; moreover the preferences re-prompt on a state with
an empty `ui` dict changes `ui`, not only the transcript; and an
invocation whose itinerary stage hits a transport failure returns no
state at all, so no assistant entry is appended. -/
theorem transcript_duplication :
    graphInvoke noNetEnv c2DupState = Except.ok c2DupResult ∧
    c2DupState.messages.length = 2 ∧ c2DupResult.messages.length = 5 ∧
    (c2DupResult.messages.filter (fun m => m.role == Role.ai)).length =
      (c2DupState.messages.filter (fun m => m.role == Role.ai)).length + 2 ∧
    graphInvoke noNetEnv c2State = Except.ok c2Result ∧
    c2Result.ui ≠ c2State.ui ∧
    advance c2ErrEnv readyState = Except.error PyErr.transport :=
  ⟨by decide, rfl, by decide, by decide, by decide, by decide, by decide⟩

/-- Counterexample to C4 as stated: two invocations of the dialog step
on the identical ready state and identical user text differ when the
`random.choice` outcome differs, because the fun-fact line of the final
itinerary message changes. -/
theorem itinerary_depends_on_environment :
    travel_node noNetEnv readyState ≠ travel_node noNetEnvR1 readyState := by
  decide

/-- C1, amended: gateway calls degrade gracefully to a fallback or empty
result for a missing credential, for a non-success status or empty
payload in coordinate resolution, and for a non-success status in the
long-range forecast; but a transport failure raises, a 4xx/5xx status in
the fine-grained fallback raises (`raise_for_status`), and a start-date
string that is not a valid ISO date raises `ValueError` during slicing —
these exceptions propagate. -/
theorem gateway_failure_policy :
    (∀ env place lat lon days sd, env.hasKey = false →
      geocode env place = .ok none ∧ daily_weather env lat lon days sd = .ok []) ∧
    (∀ env place st body, env.hasKey = true → env.geocodeResp = HResp.resp st body →
      (st ≠ 200 ∨ body = []) → geocode env place = .ok none) ∧
    (∀ env lat lon days st daily, env.onecallResp = HResp.resp st daily → st ≠ 200 →
      _onecall_daily env lat lon days = .ok none) ∧
    (∀ env place, env.hasKey = true → env.geocodeResp = HResp.transportFail →
      geocode env place = .error PyErr.transport) ∧
    (∀ env lat lon days st items, env.hasKey = true →
      env.onecallResp = HResp.resp 200 [] → env.forecast5Resp = HResp.resp st items →
      400 ≤ st → daily_weather env lat lon days none = .error PyErr.httpStatus) ∧
    (∀ env lat lon days sds r rs, env.hasKey = true →
      _onecall_daily env lat lon days = .ok (some (r :: rs)) → sds ≠ ("") →
      parseIso sds = none →
      daily_weather env lat lon days (some sds) = .error PyErr.valueError) := by
  refine ⟨?_, ?_, ?_, ?_, ?_, ?_⟩
  · intro env place lat lon days sd h
    exact ⟨by simp [geocode, h], by simp [daily_weather, h]⟩
  · intro env place st body hk hg hcase
    rcases hcase with hst | hb
    · simp [geocode, hk, hg, hst]
    · subst hb
      by_cases hst : st = 200 <;> simp [geocode, hk, hg, hst]
  · intro env lat lon days st daily ho hst
    simp [_onecall_daily, ho, hst]
  · intro env place hk hg
    simp [geocode, hk, hg]
  · intro env lat lon days st items hk ho hf hst
    have h400 : ¬ st < 400 := by omega
    simp [daily_weather, _onecall_daily, _forecast5_aggregate, hk, ho, hf, hst, h400]
  · intro env lat lon days sds r rs hk ho hne hpar
    simp [daily_weather, hk, ho, blankO, hne, hpar]

/-- Witness for C1 at concrete environments, one per conjunct. -/
theorem gateway_failure_policy_witness :
    (geocode noNetEnv ("Goa") = .ok none ∧ daily_weather noNetEnv 0 0 5 none = .ok []) ∧
    geocode c1wEnv2 ("Goa") = .ok none ∧
    _onecall_daily c1wEnv3 0 0 5 = .ok none ∧
    geocode c2ErrEnv ("Goa") = .error PyErr.transport ∧
    daily_weather c1Env 0 0 5 none = .error PyErr.httpStatus ∧
    daily_weather c1wEnv6 0 0 3 (some ("tomorrow")) = .error PyErr.valueError :=
  ⟨gateway_failure_policy.1 noNetEnv ("Goa") 0 0 5 none rfl,
   gateway_failure_policy.2.1 c1wEnv2 ("Goa") 404 [] rfl rfl (Or.inl (by decide)),
   gateway_failure_policy.2.2.1 c1wEnv3 0 0 5 500 [] rfl (by decide),
   gateway_failure_policy.2.2.2.1 c2ErrEnv ("Goa") rfl rfl,
   gateway_failure_policy.2.2.2.2.1 c1Env 0 0 5 500 [] rfl rfl rfl (by decide),
   gateway_failure_policy.2.2.2.2.2 c1wEnv6 0 0 3 ("tomorrow")
     { date := ("2025-03-01"), t_min := some 10, t_max := some 12, precip_prob := 0 }
     [] rfl (by decide) (by decide) (by decide)⟩

/-- Counterexample to C1 as stated: with a credential present, geocoding
succeeding, an empty long-range payload and a 500 from the fine-grained
endpoint, `daily_weather` raises and the exception reaches the dialog
step. -/
theorem forecast_fallback_raises :
    daily_weather c1Env 15 74 5 none = Except.error PyErr.httpStatus ∧
    advance c1Env readyState = Except.error PyErr.httpStatus :=
  ⟨by decide, by decide⟩

theorem lookupAcc_nil (k : String) : lookupAcc [] k = emptyAcc := rfl

theorem lookupAcc_cons (k0 : String) (b : DayAcc) (rest : List (String × DayAcc))
    (k : String) :
    lookupAcc ((k0, b) :: rest) k = if k0 == k then b else lookupAcc rest k := by
  by_cases h : k0 == k <;> simp [lookupAcc, List.find?_cons, h]

theorem lookupAcc_updateAcc_eq : ∀ (m : List (String × DayAcc)) (k : String) (e : F5Entry),
    lookupAcc (updateAcc m k e) k = pushEntry (lookupAcc m k) e
  | [], k, e => by simp [updateAcc, lookupAcc_cons, lookupAcc_nil]
  | (k0, b) :: rest, k, e => by
    by_cases hk : k0 == k
    · simp [updateAcc, hk, lookupAcc_cons]
    · simp [updateAcc, hk, lookupAcc_cons, lookupAcc_updateAcc_eq rest k e]

theorem lookupAcc_updateAcc_ne : ∀ (m : List (String × DayAcc)) (k k' : String)
    (e : F5Entry), k' ≠ k → lookupAcc (updateAcc m k e) k' = lookupAcc m k'
  | [], k, k', e, h => by
    have hne : ¬ k = k' := fun hh => h hh.symm
    simp [updateAcc, lookupAcc_cons, lookupAcc_nil, hne]
  | (k0, b) :: rest, k, k', e, h => by
    by_cases hk : k0 == k
    · have hk2 : k0 = k := by simpa using hk
      subst hk2
      have hne : ¬ k0 = k' := fun hh => h hh.symm
      simp [updateAcc, lookupAcc_cons, hne]
    · simp [updateAcc, hk, lookupAcc_cons, lookupAcc_updateAcc_ne rest k k' e h]

theorem lookupAcc_addEntry (m : List (String × DayAcc)) (e : F5Entry) (k : String) :
    lookupAcc (addEntry m e) k =
      if dayKeyOf e == some k then pushEntry (lookupAcc m k) e else lookupAcc m k := by
  unfold addEntry
  cases hd : dayKeyOf e with
  | none => simp
  | some k0 =>
    by_cases hk : k0 = k
    · subst hk
      simp [lookupAcc_updateAcc_eq]
    · simp [hk, lookupAcc_updateAcc_ne m k0 k e (Ne.symm hk)]

theorem lookupAcc_foldl : ∀ (items : List F5Entry) (m : List (String × DayAcc))
    (k : String),
    lookupAcc (items.foldl addEntry m) k =
      (items.filter (fun e => dayKeyOf e == some k)).foldl pushEntry (lookupAcc m k)
  | [], m, k => rfl
  | e :: rest, m, k => by
    by_cases hd : dayKeyOf e == some k
    · simp only [List.foldl_cons, List.filter_cons, hd, if_true]
      rw [lookupAcc_foldl rest (addEntry m e) k, lookupAcc_addEntry, if_pos hd]
    · simp only [List.foldl_cons, List.filter_cons]
      rw [lookupAcc_foldl rest (addEntry m e) k, lookupAcc_addEntry, if_neg hd]
      simp [hd]

theorem foldl_pushEntry_accOf : ∀ (l : List F5Entry) (b : DayAcc),
    l.foldl pushEntry b = accAppend b (accOf l)
  | [], b => by cases b; simp [accAppend, accOf]
  | e :: rest, b => by
    rw [List.foldl_cons, foldl_pushEntry_accOf rest (pushEntry b e)]
    cases b
    simp only [pushEntry, accAppend, accOf, List.filterMap_cons, List.map_cons]
    rcases e with ⟨dt, t, tn, tx, pp⟩
    cases t <;> cases tn <;> cases tx <;> simp

theorem lookupAcc_foldl_nil (items : List F5Entry) (k : String) :
    lookupAcc (items.foldl addEntry []) k = accOf (dayEntries items k) := by
  rw [lookupAcc_foldl, lookupAcc_nil, foldl_pushEntry_accOf]
  show accAppend emptyAcc (accOf (dayEntries items k)) = accOf (dayEntries items k)
  generalize accOf (dayEntries items k) = a
  cases a
  simp [accAppend, emptyAcc]

theorem mem_keys_updateAcc : ∀ (m : List (String × DayAcc)) (k k' : String)
    (e : F5Entry),
    (k' ∈ (updateAcc m k e).map Prod.fst ↔ k' ∈ m.map Prod.fst ∨ k' = k)
  | [], k, k', e => by simp [updateAcc]
  | (k0, b) :: rest, k, k', e => by
    by_cases hk : k0 == k
    · have hk2 : k0 = k := by simpa using hk
      subst hk2
      simp [updateAcc]
      tauto
    · simp [updateAcc, hk, mem_keys_updateAcc rest k k' e, or_assoc]

theorem nodup_keys_updateAcc : ∀ (m : List (String × DayAcc)) (k : String)
    (e : F5Entry), (m.map Prod.fst).Nodup → ((updateAcc m k e).map Prod.fst).Nodup
  | [], k, e, _ => by simp [updateAcc]
  | (k0, b) :: rest, k, e, h => by
    by_cases hk : k0 == k
    · have hk2 : k0 = k := by simpa using hk
      subst hk2
      simpa [updateAcc] using h
    · have hk' : ¬ k0 = k := by simpa using hk
      have hkf : (k0 == k) = false := by simpa using hk
      simp only [updateAcc, hkf, Bool.false_eq_true, if_false, List.map_cons,
        List.nodup_cons] at h ⊢
      refine ⟨?_, nodup_keys_updateAcc rest k e h.2⟩
      intro hc
      rcases (mem_keys_updateAcc rest k k0 e).mp hc with hc | hc
      · exact h.1 hc
      · exact hk' hc

theorem mem_keys_addEntry (m : List (String × DayAcc)) (e : F5Entry) (k : String) :
    k ∈ (addEntry m e).map Prod.fst ↔
      k ∈ m.map Prod.fst ∨ dayKeyOf e = some k := by
  unfold addEntry
  cases hd : dayKeyOf e with
  | none => simp
  | some k0 =>
    rw [mem_keys_updateAcc]
    simp [eq_comm]

theorem nodup_keys_addEntry (m : List (String × DayAcc)) (e : F5Entry)
    (h : (m.map Prod.fst).Nodup) : ((addEntry m e).map Prod.fst).Nodup := by
  unfold addEntry
  cases dayKeyOf e with
  | none => exact h
  | some k0 => exact nodup_keys_updateAcc m k0 e h

theorem mem_keys_foldl : ∀ (items : List F5Entry) (m : List (String × DayAcc))
    (k : String),
    k ∈ (items.foldl addEntry m).map Prod.fst ↔
      k ∈ m.map Prod.fst ∨ ∃ e ∈ items, dayKeyOf e = some k
  | [], m, k => by simp
  | e :: rest, m, k => by
    rw [List.foldl_cons, mem_keys_foldl rest (addEntry m e) k, mem_keys_addEntry]
    constructor
    · rintro ((h | h) | ⟨e', he', hd⟩)
      · exact Or.inl h
      · exact Or.inr ⟨e, by simp, h⟩
      · exact Or.inr ⟨e', by simp [he'], hd⟩
    · rintro (h | ⟨e', he', hd⟩)
      · exact Or.inl (Or.inl h)
      · rcases List.mem_cons.mp he' with rfl | he'
        · exact Or.inl (Or.inr hd)
        · exact Or.inr ⟨e', he', hd⟩

theorem nodup_keys_foldl : ∀ (items : List F5Entry) (m : List (String × DayAcc)),
    (m.map Prod.fst).Nodup → ((items.foldl addEntry m).map Prod.fst).Nodup
  | [], m, h => h
  | e :: rest, m, h =>
    nodup_keys_foldl rest (addEntry m e) (nodup_keys_addEntry m e h)

theorem insertStr_perm (x : String) : ∀ (l : List String),
    (insertStr x l).Perm (x :: l)
  | [] => List.Perm.refl _
  | y :: ys => by
    unfold insertStr
    by_cases h : strLt x y
    · simp [h]
    · simp only [h, if_false]
      exact ((insertStr_perm x ys).cons y).trans (List.Perm.swap x y ys)

theorem sortStrings_perm : ∀ (l : List String), (sortStrings l).Perm l
  | [] => List.Perm.refl _
  | x :: xs => (insertStr_perm x (sortStrings xs)).trans ((sortStrings_perm xs).cons x)

theorem filterMap_isSome_ne_nil (f : F5Entry → Option ℚ) :
    ∀ (E : List F5Entry), E ≠ [] → (∀ e ∈ E, (f e).isSome) →
      E.filterMap f ≠ []
  | [], hne, _ => absurd rfl hne
  | e :: E', _, hall => by
    have hs := hall e (by simp)
    cases he : f e with
    | none => rw [he] at hs; simp at hs
    | some v => simp [List.filterMap_cons, he]

theorem isEmpty_false_of_ne_nil {α : Type} {l : List α} (h : l ≠ []) :
    l.isEmpty = false := by
  cases l with
  | nil => exact absurd rfl h
  | cons x xs => rfl

/-- C7: when the long-range daily source is unavailable or empty, the
returned per-day summaries come from the fine-grained 3-hour entries
grouped by calendar day (distinct days, each backed by at least one
entry); each day reports the minimum of the per-entry minimum
temperatures and the maximum of the per-entry maximum temperatures (when
present on every entry of the day) and the maximum — not the average —
of the per-entry precipitation probabilities, scaled to a rounded
percentage. -/
theorem forecast_fallback_aggregation :
    ∀ env lat lon days st items,
      env.hasKey = true →
      _onecall_daily env lat lon days = .ok none →
      env.forecast5Resp = HResp.resp st items → st < 400 →
      daily_weather env lat lon days none = _forecast5_aggregate env lat lon days ∧
      ∃ out, _forecast5_aggregate env lat lon days = .ok out ∧
        (out.map WRec.date).Nodup ∧
        ∀ r ∈ out,
          dayEntries items r.date ≠ [] ∧
          r.precip_prob = pyRound (qTimes100 (listMaxQ
            ((dayEntries items r.date).map (fun e => e.pop.getD 0)))) ∧
          ((∀ e ∈ dayEntries items r.date, e.temp_min.isSome) →
            r.t_min = some (listMinQ
              ((dayEntries items r.date).filterMap F5Entry.temp_min))) ∧
          ((∀ e ∈ dayEntries items r.date, e.temp_max.isSome) →
            r.t_max = some (listMaxQ
              ((dayEntries items r.date).filterMap F5Entry.temp_max))) := by
  intro env lat lon days st items hk ho hf hst
  have h400 : ¬ 400 ≤ st := by omega
  constructor
  · cases hfa : _forecast5_aggregate env lat lon days with
    | error e => simp [daily_weather, hk, ho, hfa]
    | ok f5 => simp [daily_weather, hk, ho, hfa, blankO]
  · have hout : _forecast5_aggregate env lat lon days = .ok
        (((sortStrings ((items.foldl addEntry []).map Prod.fst)).take days).map
          (fun day => mkDayRec day (lookupAcc (items.foldl addEntry []) day))) := by
      simp [_forecast5_aggregate, hf, h400]
    refine ⟨_, hout, ?_, ?_⟩
    · have hmapdate :
          ((((sortStrings ((items.foldl addEntry []).map Prod.fst)).take days).map
            (fun day => mkDayRec day (lookupAcc (items.foldl addEntry []) day))).map
              WRec.date)
          = (sortStrings ((items.foldl addEntry []).map Prod.fst)).take days := by
        rw [List.map_map]
        have hcomp : (WRec.date ∘ fun day =>
            mkDayRec day (lookupAcc (items.foldl addEntry []) day)) =
            fun day => day := funext (fun day => rfl)
        rw [hcomp, List.map_id']
      rw [hmapdate]
      have hnk : (((items.foldl addEntry []).map Prod.fst)).Nodup :=
        nodup_keys_foldl items [] (by simp)
      have hns : (sortStrings ((items.foldl addEntry []).map Prod.fst)).Nodup :=
        ((sortStrings_perm _).nodup_iff).mpr hnk
      exact hns.sublist (List.take_sublist _ _)
    · intro r hr
      obtain ⟨day, hday, rfl⟩ := List.mem_map.mp hr
      have hdays0 : day ∈ sortStrings ((items.foldl addEntry []).map Prod.fst) :=
        List.mem_of_mem_take hday
      have hdayk : day ∈ ((items.foldl addEntry []).map Prod.fst) :=
        (sortStrings_perm _).mem_iff.mp hdays0
      have hex : ∃ e ∈ items, dayKeyOf e = some day := by
        rcases (mem_keys_foldl items [] day).mp hdayk with h | h
        · simp at h
        · exact h
      have hEne : dayEntries items day ≠ [] := by
        obtain ⟨e, he, hd⟩ := hex
        intro hc
        have hmem : e ∈ dayEntries items day := by
          simp [dayEntries, List.mem_filter, he, hd]
        rw [hc] at hmem
        simp at hmem
      have hacc : lookupAcc (items.foldl addEntry []) day =
          accOf (dayEntries items day) := lookupAcc_foldl_nil items day
      rw [hacc]
      have hpopne : ((dayEntries items day).map (fun e => e.pop.getD 0)) ≠ [] := by
        intro hc
        exact hEne (List.map_eq_nil_iff.mp hc)
      refine ⟨by simpa [mkDayRec] using hEne, ?_, ?_, ?_⟩
      · simp [mkDayRec, accOf, isEmpty_false_of_ne_nil hpopne]
      · intro hall
        have hne2 := filterMap_isSome_ne_nil F5Entry.temp_min (dayEntries items day)
          hEne (by simpa [mkDayRec] using hall)
        simp [mkDayRec, accOf, isEmpty_false_of_ne_nil hne2]
      · intro hall
        have hne2 := filterMap_isSome_ne_nil F5Entry.temp_max (dayEntries items day)
          hEne (by simpa [mkDayRec] using hall)
        simp [mkDayRec, accOf, isEmpty_false_of_ne_nil hne2]

/-- Witness for C7 at a concrete environment: empty long-range payload,
successful fine-grained response over two calendar days. -/
theorem forecast_fallback_aggregation_witness :
    daily_weather c7Env 0 0 5 none = _forecast5_aggregate c7Env 0 0 5 :=
  (forecast_fallback_aggregation c7Env 0 0 5 200 c7Items rfl (by decide) rfl
    (by decide)).1
